import Mathlib

/-!
Verification of the finance-chat-agent orchestration core.

Shallow embedding of the LangGraph agent in `src/agent/`:
the state schema (`agent_state.py`), the routing function (`routing.py`),
the five node functions (`planner.py`, `tool_caller.py`, `validator.py`,
`error_handler.py`, `synthesizer.py`) and the graph's conditional-edge
maps (`agent.py`).

Modelling conventions:
- Python `str` is `String`, `Optional[str]` is `Option String`;
  Python truthiness of an optional string (`None` and `""` falsy) is
  `pyTruthyStr`.
- Python `int` counters are `Nat` (they start at 0 and are only
  incremented in this program).
- Python `float` confidences are `ℚ`; only the literals 0.95, 0.6, 0.7
  occur, written `mkRat 95 100` etc. so the kernel can evaluate them.
- `Dict[str, str]`-shaped values are association lists
  `List (String × String)`.
- Timestamps come from the wall clock (`datetime.now()`); node
  functions take the timestamp as an explicit `now : String` argument.
- A node returns a partial update (a Python dict with a subset of the
  state keys), modelled as `StateUpdate` whose fields are `Option`s
  (`none` = key absent).  LangGraph merges a partial update into the
  state: fields annotated `operator.add` in `AgentState`
  (`messages`, `tool_executions`, `reasoning_steps`, `errors`) are
  concatenated; every other field present in the update overwrites the
  prior value (`mergeUpdate`).
- The LLM and MCP collaborators are external: their outcomes are
  parameters of the node functions (a parse-outcome inductive for the
  LLM response, an `Except`-valued call for the MCP tool service),
  mirroring exactly the branch structure of the Python `try/except`
  code around them.
- `messages` (chat history) is never read or written by any of the five
  nodes and is omitted from the state; `available_tools`,
  `original_query`, `max_iterations`, `max_retries` are never updated
  by any node and so have no slot in `StateUpdate`.
-/

/-- `SubTask` from `agent_state.py`: one decomposed unit of work.
`status` ranges over the strings "pending", "in_progress",
"completed", "failed" exactly as in the Python. -/
structure SubTask where
  id : String
  description : String
  status : String
  assigned_tools : List String
  result : Option String := none
  error : Option String := none
  retry_count : Nat := 0
  deriving Repr, DecidableEq

/-- `ToolExecution` from `agent_state.py`: record of one MCP invocation. -/
structure ToolExecution where
  tool_name : String
  arguments : List (String × String)
  result : Option String := none
  error : Option String := none
  timestamp : String
  subtask_id : Option String := none
  deriving Repr, DecidableEq

/-- `ReasoningStep` from `agent_state.py`.  The `metadata` dict is
heterogeneous presentation data never read by the orchestration core
and is omitted; numeric renderings inside `content` (Python `:.2f`)
are abstracted to plain stringification. -/
structure ReasoningStep where
  step_type : String
  content : String
  timestamp : String
  deriving Repr, DecidableEq

/-- The nested `cross_check_results` dict built by the validator
(original/alternative hierarchy and truncated result). -/
structure CrossCheckData where
  original_hierarchy : Option String
  original_result : Option String
  alternative_hierarchy : String
  alternative_result : Option String
  deriving Repr, DecidableEq

/-- `ValidationResult` from `agent_state.py`; `confidence` is ℚ since the
code only ever uses the literals 0.95, 0.6, 0.7.  `cross_check_results`
is `none` when the Python code sets it to the empty dict. -/
structure ValidationResult where
  is_valid : Bool
  confidence : ℚ
  issues : List String := []
  cross_check_results : Option CrossCheckData := none
  deriving Repr, DecidableEq

/-- One entry of the `errors` list: the Python dict literals built in
`tool_caller.py` with keys `subtask_id`, `tool`, `error`, `timestamp`. -/
structure ErrorRecord where
  subtask_id : String
  tool : String
  error : String
  timestamp : String
  deriving Repr, DecidableEq

/-- `AgentState` from `agent_state.py` (minus the unused `messages`). -/
structure AgentState where
  original_query : String
  current_task : Option String
  subtasks : List SubTask
  completed_subtasks : List String
  tool_executions : List ToolExecution
  available_tools : List String
  reasoning_steps : List ReasoningStep
  iteration_count : Nat
  max_iterations : Nat
  validation_results : List ValidationResult
  needs_validation : Bool
  errors : List ErrorRecord
  retry_count : Nat
  max_retries : Nat
  intermediate_results : List (String × String)
  final_answer : Option String
  should_continue : Bool
  needs_replanning : Bool
  error_recovery_mode : Bool
  deriving Repr, DecidableEq

/-- A partial update returned by a node: `none` means the key is absent
from the returned dict. -/
structure StateUpdate where
  current_task : Option (Option String) := none
  subtasks : Option (List SubTask) := none
  completed_subtasks : Option (List String) := none
  tool_executions : Option (List ToolExecution) := none
  reasoning_steps : Option (List ReasoningStep) := none
  iteration_count : Option Nat := none
  validation_results : Option (List ValidationResult) := none
  needs_validation : Option Bool := none
  errors : Option (List ErrorRecord) := none
  retry_count : Option Nat := none
  intermediate_results : Option (List (String × String)) := none
  final_answer : Option (Option String) := none
  should_continue : Option Bool := none
  needs_replanning : Option Bool := none
  error_recovery_mode : Option Bool := none
  deriving Repr, DecidableEq

/-- LangGraph merge of a partial update into the state, following the
annotations in `agent_state.py`: `tool_executions`, `reasoning_steps`
and `errors` are `Annotated[..., operator.add]` (concatenate); every
other field, when present in the update, overwrites the prior value. -/
def mergeUpdate (s : AgentState) (u : StateUpdate) : AgentState :=
  { s with
    current_task := u.current_task.getD s.current_task
    subtasks := u.subtasks.getD s.subtasks
    completed_subtasks := u.completed_subtasks.getD s.completed_subtasks
    tool_executions := s.tool_executions ++ u.tool_executions.getD []
    reasoning_steps := s.reasoning_steps ++ u.reasoning_steps.getD []
    iteration_count := u.iteration_count.getD s.iteration_count
    validation_results := u.validation_results.getD s.validation_results
    needs_validation := u.needs_validation.getD s.needs_validation
    errors := s.errors ++ u.errors.getD []
    retry_count := u.retry_count.getD s.retry_count
    intermediate_results := u.intermediate_results.getD s.intermediate_results
    final_answer := u.final_answer.getD s.final_answer
    should_continue := u.should_continue.getD s.should_continue
    needs_replanning := u.needs_replanning.getD s.needs_replanning
    error_recovery_mode := u.error_recovery_mode.getD s.error_recovery_mode }

/-- Python truthiness of an `Optional[str]`: `None` and `""` are falsy. -/
def pyTruthyStr : Option String → Bool
  | none => false
  | some str => !str.isEmpty

/-- Python `d.get(k)` on a string-valued dict. -/
def dictGet (d : List (String × String)) (k : String) : Option String :=
  (d.find? (fun p => p.1 == k)).map (fun p => p.2)

/-- Python `d[k] = v` on a string-valued dict. -/
def dictInsert (d : List (String × String)) (k v : String) :
    List (String × String) :=
  if d.any (fun p => p.1 == k) then
    d.map (fun p => if p.1 == k then (k, v) else p)
  else d ++ [(k, v)]

/-- In-place mutation of the first list element matching a predicate
(Python's find-the-object-then-mutate-it idiom over `state["subtasks"]`). -/
def updateFirst (p : SubTask → Bool) (f : SubTask → SubTask) :
    List SubTask → List SubTask
  | [] => []
  | st :: rest =>
      if p st then f st :: rest else st :: updateFirst p f rest

/-- `create_subtask` from `agent_state.py`. -/
def create_subtask (task_id description : String)
    (assigned_tools : List String) : SubTask :=
  { id := task_id, description := description, status := "pending",
    assigned_tools := assigned_tools }

/-- `create_reasoning_step` from `agent_state.py` (timestamp passed in). -/
def create_reasoning_step (step_type content now : String) : ReasoningStep :=
  { step_type := step_type, content := content, timestamp := now }

/-- `create_tool_execution` from `agent_state.py` (timestamp passed in). -/
def create_tool_execution (tool_name : String)
    (arguments : List (String × String)) (result : Option String)
    (subtask_id : Option String) (now : String) : ToolExecution :=
  { tool_name := tool_name, arguments := arguments, result := result,
    error := none, timestamp := now, subtask_id := subtask_id }

/-- `create_initial_state` from `agent_state.py`. -/
def create_initial_state (query : String) (available_tools : List String)
    (max_iterations : Nat := 15) (max_retries : Nat := 3) : AgentState :=
  { original_query := query, current_task := none, subtasks := [],
    completed_subtasks := [], tool_executions := [],
    available_tools := available_tools, reasoning_steps := [],
    iteration_count := 0, max_iterations := max_iterations,
    validation_results := [], needs_validation := false, errors := [],
    retry_count := 0, max_retries := max_retries,
    intermediate_results := [], final_answer := none,
    should_continue := true, needs_replanning := false,
    error_recovery_mode := false }

/-- `route_next_action` from `routing.py`, line for line.  Note the
Python computes `all_complete` as `all(...) if state["subtasks"] else
False`: an empty subtask list is *not* all-complete. -/
def route_next_action (s : AgentState) : String :=
  -- Safety check: iteration limit
  if s.iteration_count ≥ s.max_iterations then "synthesizer"
  -- Error recovery path
  else if s.error_recovery_mode && decide (s.retry_count < s.max_retries) then
    "error_handler"
  -- Needs replanning
  else if s.needs_replanning then "planner"
  else
    let all_complete :=
      if s.subtasks.isEmpty then false
      else s.subtasks.all (fun st =>
        st.status == "completed" || st.status == "failed")
    -- If all tasks complete: validator if needed, else synthesizer
    if all_complete then
      if s.needs_validation then "validator" else "synthesizer"
    -- Validation needed but tasks not complete yet: validate once there
    -- is an HPL execution and no validation results
    else if s.needs_validation && !all_complete
        && !(s.tool_executions.filter (fun e =>
              e.tool_name == "calculate_hypothetical_pnl")).isEmpty
        && s.validation_results.isEmpty then
      "validator"
    -- Continue with tool calling if there are pending tasks
    else if pyTruthyStr s.current_task
        || s.subtasks.any (fun st => st.status == "pending") then
      "tool_caller"
    -- Default: move to synthesis
    else "synthesizer"

/-- The conditional-edge target map out of the `planner` node
(`agent.py`, `_build_graph`). -/
def plannerEdgeTargets : List String := ["tool_caller", "synthesizer"]

/-- The conditional-edge target map out of the `tool_caller` node. -/
def toolCallerEdgeTargets : List String :=
  ["validator", "error_handler", "tool_caller", "synthesizer", "planner"]

/-- The conditional-edge target map out of the `validator` node. -/
def validatorEdgeTargets : List String := ["tool_caller", "synthesizer"]

/-- The conditional-edge target map out of the `error_handler` node:
only `planner` (replan), `tool_caller` (retry) and `synthesizer`
(give up) are mapped. -/
def errorHandlerEdgeTargets : List String :=
  ["planner", "tool_caller", "synthesizer"]

/-- `handle_errors` from `error_handler.py`: the 4-tier recovery
strategist keyed on `retry_count`.  `latest_error` is
`state["errors"][-1]` when the error log is non-empty. -/
def handle_errors (now : String) (s : AgentState) : StateUpdate :=
  match s.errors.getLast? with
  | none =>
      { error_recovery_mode := some false,
        iteration_count := some (s.iteration_count + 1) }
  | some latest =>
      let retry := s.retry_count
      let reasoning := create_reasoning_step "error"
        (s!"Encountered error: {latest.error}. Attempting recovery (retry {retry}/{s.max_retries})")
        now
      -- Strategy 1: retry with same parameters (transient errors)
      if retry == 0 then
        { retry_count := some (retry + 1),
          reasoning_steps := some [reasoning],
          should_continue := some true,
          needs_replanning := some false,
          iteration_count := some (s.iteration_count + 1) }
      -- Strategy 2: try alternative tool (if available)
      else if retry == 1 then
        match s.subtasks.find? (fun st => st.id == latest.subtask_id) with
        | some failed_subtask =>
            if failed_subtask.assigned_tools.length > 1 then
              let alt_reasoning := create_reasoning_step "error"
                "Trying alternative tool approach" now
              { retry_count := some (retry + 1),
                reasoning_steps := some [reasoning, alt_reasoning],
                current_task := some (some failed_subtask.id),
                should_continue := some true,
                iteration_count := some (s.iteration_count + 1) }
            else
              -- no alternative tool available, skip to next strategy
              { retry_count := some (retry + 2),
                reasoning_steps := some [reasoning],
                should_continue := some true,
                iteration_count := some (s.iteration_count + 1) }
        | none =>
            { retry_count := some (retry + 2),
              reasoning_steps := some [reasoning],
              should_continue := some true,
              iteration_count := some (s.iteration_count + 1) }
      -- Strategy 3: replan with different subtasks
      else if retry == 2 then
        let replan_reasoning := create_reasoning_step "error"
          "Replanning query with different approach" now
        { retry_count := some (retry + 1),
          reasoning_steps := some [reasoning, replan_reasoning],
          needs_replanning := some true,
          should_continue := some true,
          iteration_count := some (s.iteration_count + 1) }
      -- Give up after max retries
      else
        let final_reasoning := create_reasoning_step "error"
          "Max retries exceeded. Proceeding with partial results." now
        { error_recovery_mode := some false,
          reasoning_steps := some [reasoning, final_reasoning],
          should_continue := some true,
          iteration_count := some (s.iteration_count + 1) }

/-- One task object of the planner's parsed JSON array
(`task_data['id']`, `task_data['description']`,
`task_data.get('tools', [])`). -/
structure TaskData where
  id : String
  description : String
  tools : Option (List String) := none
  deriving Repr, DecidableEq

/-- Outcome of parsing the LLM planning response in `plan_tasks`:
either no bracketed array was found in the text, or `json.loads` (or a
required field access) raised, or a list of task objects was parsed. -/
inductive PlannerParse where
  | noArray
  | malformed
  | tasks (ts : List TaskData)
  deriving Repr, DecidableEq

/-- `plan_tasks` from `planner.py`, as a function of the parse outcome
of the LLM response.  Both the no-array case and the exception case
fall back to the single synthetic subtask; a successfully parsed list
(including the empty list) is used as-is. -/
def plan_tasks (resp : PlannerParse) (now : String) (s : AgentState) :
    StateUpdate :=
  let fallback := create_subtask "task_1"
    ("Address query: " ++ s.original_query) s.available_tools
  let subtasks : List SubTask :=
    match resp with
    | .tasks ts =>
        ts.map (fun t => create_subtask t.id t.description (t.tools.getD []))
    | .noArray => [fallback]
    | .malformed => [fallback]
  let reasoning := create_reasoning_step "planning"
    (s!"Decomposed query into {subtasks.length} subtask(s): " ++
      String.intercalate ", " (subtasks.map (fun st => st.description))) now
  let needs_validation := subtasks.any (fun task =>
    task.assigned_tools.contains "calculate_hypothetical_pnl")
  { subtasks := some subtasks,
    reasoning_steps := some [reasoning],
    current_task := some (subtasks.head?.map (fun st => st.id)),
    iteration_count := some (s.iteration_count + 1),
    needs_replanning := some false,
    needs_validation := some needs_validation }

/-- Outcome of parsing the LLM tool-selection response in
`execute_tools`: no JSON object found in the text, an exception while
parsing (`json.loads` or downstream), or a `{tool, arguments}`
decision.  (A parsed object whose `tool` key is missing makes the MCP
call raise and is observationally a failing call.) -/
inductive ToolSelection where
  | noJson
  | parseError (msg : String)
  | parsed (tool : String) (args : List (String × String))
  deriving Repr, DecidableEq

/-- `execute_tools` from `tool_caller.py`, as a function of the LLM
parse outcome and the MCP tool-execution collaborator `call`.
The Python mutates `state["subtasks"]` (and, on success,
`state["intermediate_results"]`) in place; since both fields are
overwrite-merged, this is modelled as an overwrite entry in the
returned update.  The next pending subtask is searched on the mutated
list.  (Lines 176–179 of the source compute a `completed_tasks` list
that is never used; the returned `completed_subtasks` entry is
`[current_subtask.id]` or `[]`.) -/
def execute_tools (sel : ToolSelection)
    (call : String → List (String × String) → Except String String)
    (now : String) (s : AgentState) : StateUpdate :=
  match s.subtasks.find? (fun st => s.current_task == some st.id) with
  | none =>
      -- no current task: move to next pending subtask
      match s.subtasks.find? (fun st => st.status == "pending") with
      | some st =>
          { current_task := some (some st.id),
            iteration_count := some (s.iteration_count + 1) }
      | none =>
          -- no more tasks
          { should_continue := some false,
            iteration_count := some (s.iteration_count + 1) }
  | some current_subtask =>
      -- status is set to "in_progress", then overwritten by every branch
      match sel with
      | .noJson =>
          let err : ErrorRecord :=
            { subtask_id := current_subtask.id, tool := "unknown",
              error := "Failed to parse tool selection from LLM response",
              timestamp := "" }
          let mutated := updateFirst (fun st => s.current_task == some st.id)
            (fun st =>
              { st with status := "failed",
                        error := some "Failed to parse tool selection" })
            s.subtasks
          { tool_executions := some [],
            reasoning_steps := some [],
            errors := some [err],
            error_recovery_mode := some true,
            iteration_count := some (s.iteration_count + 1),
            current_task := some ((mutated.find? (fun st =>
              st.status == "pending")).map (fun st => st.id)),
            completed_subtasks := some [],
            intermediate_results := some s.intermediate_results,
            subtasks := some mutated }
      | .parseError msg =>
          let err : ErrorRecord :=
            { subtask_id := current_subtask.id, tool := "unknown",
              error := msg, timestamp := "" }
          let mutated := updateFirst (fun st => s.current_task == some st.id)
            (fun st =>
              { st with status := "failed", error := some msg })
            s.subtasks
          { tool_executions := some [],
            reasoning_steps := some [],
            errors := some [err],
            error_recovery_mode := some true,
            iteration_count := some (s.iteration_count + 1),
            current_task := some ((mutated.find? (fun st =>
              st.status == "pending")).map (fun st => st.id)),
            completed_subtasks := some [],
            intermediate_results := some s.intermediate_results,
            subtasks := some mutated }
      | .parsed tool args =>
          let reasoning := create_reasoning_step "tool_call"
            (s!"Calling {tool} with args: " ++ toString args) now
          match call tool args with
          | .ok result =>
              let execution := create_tool_execution tool args (some result)
                (some current_subtask.id) now
              let mutated := updateFirst
                (fun st => s.current_task == some st.id)
                (fun st =>
                  { st with status := "completed", result := some result })
                s.subtasks
              { tool_executions := some [execution],
                reasoning_steps := some [reasoning],
                errors := some [],
                error_recovery_mode := some false,
                iteration_count := some (s.iteration_count + 1),
                current_task := some ((mutated.find? (fun st =>
                  st.status == "pending")).map (fun st => st.id)),
                completed_subtasks := some [current_subtask.id],
                intermediate_results :=
                  some (dictInsert s.intermediate_results
                    current_subtask.id result),
                subtasks := some mutated }
          | .error e =>
              let err : ErrorRecord :=
                { subtask_id := current_subtask.id, tool := tool,
                  error := e, timestamp := "" }
              let mutated := updateFirst
                (fun st => s.current_task == some st.id)
                (fun st =>
                  { st with status := "failed", error := some e })
                s.subtasks
              { tool_executions := some [],
                reasoning_steps := some [reasoning],
                errors := some [err],
                error_recovery_mode := some true,
                iteration_count := some (s.iteration_count + 1),
                current_task := some ((mutated.find? (fun st =>
                  st.status == "pending")).map (fun st => st.id)),
                completed_subtasks := some [],
                intermediate_results := some s.intermediate_results,
                subtasks := some mutated }

/-- The selection made at the top of `validate_results`
(`validator.py` lines 20–23): every tool execution of
`calculate_hypothetical_pnl` whose `result` is truthy. -/
def resultsToValidate (s : AgentState) : List ToolExecution :=
  s.tool_executions.filter (fun e =>
    e.tool_name == "calculate_hypothetical_pnl" && pyTruthyStr e.result)

/-- Python string slicing used in `cross_check_results`:
`v[:200] if len(str(v)) > 200 else v` on an `Optional[str]`
(`str(None)` has length 4, so `None` passes through unchanged). -/
def truncate200 (o : Option String) : Option String :=
  o.map (fun str => if str.length > 200 then str.take 200 else str)

/-- The alternative hierarchy derived for the cross-check:
`"PRA" if original_hierarchy == "FHC" else "FHC"`. -/
def altHierarchy (execution : ToolExecution) : String :=
  if dictGet execution.arguments "hierarchy" == some "FHC" then "PRA"
  else "FHC"

/-- The body of the per-execution loop in `validate_results`
(`validator.py` lines 40–89): derive the alternative hierarchy,
re-invoke the calculation through the MCP collaborator `call`, and
build one `ValidationResult`.  An exception anywhere in the `try`
block — the `KeyError` from `execution.arguments["account_number"]` or
a failing call — lands in the `except` branch: valid with reduced
confidence 0.7. -/
def validateOne (call : List (String × String) → Except String (Option String))
    (execution : ToolExecution) : ValidationResult :=
  let original_hierarchy := dictGet execution.arguments "hierarchy"
  let alt_hierarchy := altHierarchy execution
  match dictGet execution.arguments "account_number" with
  | none =>
      { is_valid := true, confidence := mkRat 7 10,
        issues := ["Cross-validation failed: KeyError"],
        cross_check_results := none }
  | some acct =>
      match call [("account_number", acct), ("hierarchy", alt_hierarchy)] with
      | .error e =>
          { is_valid := true, confidence := mkRat 7 10,
            issues := ["Cross-validation failed: " ++ e],
            cross_check_results := none }
      | .ok alt_result =>
          -- simple consistency check: both should return results
          let is_consistent := execution.result.isSome && alt_result.isSome
          { is_valid := is_consistent,
            confidence := if is_consistent then mkRat 95 100 else mkRat 6 10,
            issues :=
              if is_consistent then []
              else ["Alternative hierarchy produced different result structure"],
            cross_check_results := some
              { original_hierarchy := original_hierarchy,
                original_result := truncate200 execution.result,
                alternative_hierarchy := alt_hierarchy,
                alternative_result := truncate200 alt_result } }

/-- `validate_results` from `validator.py`, as a function of the MCP
collaborator `call` (`await mcp_manager.call_tool(...)`: a string
result, `None` when nothing is extracted, or a raised exception).
The per-iteration `reasoning` variable is reassigned by each loop pass,
so the returned list holds the reasoning of the *last* validated
execution followed by the summary step; the Python `:.2f` rendering of
the mean confidence is abstracted to plain stringification. -/
def validate_results
    (call : List (String × String) → Except String (Option String))
    (now : String) (s : AgentState) : StateUpdate :=
  let selected := resultsToValidate s
  if selected.isEmpty then
    let reasoning := create_reasoning_step "validation"
      "No calculations require cross-validation" now
    { reasoning_steps := some [reasoning],
      needs_validation := some false,
      iteration_count := some (s.iteration_count + 1) }
  else
    let validation_results := selected.map (validateOne call)
    let avg_confidence :=
      (validation_results.map (fun v => v.confidence)).sum /
        (validation_results.length : ℚ)
    let summary_reasoning := create_reasoning_step "validation"
      (s!"Validated {validation_results.length} calculation(s) " ++
        s!"with average confidence: {avg_confidence}") now
    let last_reasoning :=
      match selected.getLast? with
      | some execution =>
          [create_reasoning_step "validation"
            (s!"Cross-validating results from {execution.tool_name}") now,
           summary_reasoning]
      | none => [summary_reasoning]
    { validation_results := some validation_results,
      needs_validation := some false,
      reasoning_steps := some last_reasoning,
      iteration_count := some (s.iteration_count + 1) }

/-- `synthesize_answer` from `synthesizer.py`, as a function of the
LLM's synthesis output `answer` (the prompt assembly feeds the oracle
and does not affect the returned update). -/
def synthesize_answer (answer : String) (now : String) (s : AgentState) :
    StateUpdate :=
  let reasoning := create_reasoning_step "summary"
    "Synthesized final answer from all subtask results" now
  { final_answer := some (some answer),
    reasoning_steps := some [reasoning],
    should_continue := some false,
    iteration_count := some (s.iteration_count + 1) }

/-- A full recovery step as the engine performs it: run `handle_errors`
and merge its partial update into the state. -/
def recoverStep (now : String) (s : AgentState) : AgentState :=
  mergeUpdate s (handle_errors now s)

/-- C1: for every state with `iteration_count ≥ max_iterations`,
`route_next_action` returns `"synthesizer"` regardless of
`error_recovery_mode`, `needs_replanning`, `needs_validation`,
`current_task`, `retry_count` or the subtasks list. -/
theorem route_synthesizer_at_iteration_cap (s : AgentState)
    (h : s.max_iterations ≤ s.iteration_count) :
    route_next_action s = "synthesizer" := by
  unfold route_next_action
  simp [h]

/-- Witness for C1 at a concrete contradictory-flag state. -/
theorem route_synthesizer_at_iteration_cap_witness :
    (let s : AgentState :=
      { create_initial_state "q" ["get_account_pnl"] 3 3 with
          iteration_count := 3, error_recovery_mode := true,
          needs_replanning := true, needs_validation := true,
          current_task := some "task_1" }
     s.max_iterations ≤ s.iteration_count ∧
       route_next_action s = "synthesizer") :=
  ⟨by decide, route_synthesizer_at_iteration_cap _ (by decide)⟩

/-- A state with no subtasks, `needs_validation` off, all earlier
routing rules disabled, but a non-empty `current_task`. -/
def emptySubtasksCurrentTaskState : AgentState :=
  { create_initial_state "q" ["get_account_pnl"] 15 3 with
      current_task := some "task_1" }

/-- Counterexample to C6: with an empty subtasks list,
`needs_validation = false`, `iteration_count < max_iterations`,
`error_recovery_mode` off and `needs_replanning` off, the router still
returns `"tool_caller"` (not `"synthesizer"`) when `current_task` is a
non-empty string, because rule 6 fires on the truthy `current_task`. -/
theorem route_empty_subtasks_cex :
    emptySubtasksCurrentTaskState.subtasks = [] ∧
    emptySubtasksCurrentTaskState.needs_validation = false ∧
    emptySubtasksCurrentTaskState.iteration_count <
      emptySubtasksCurrentTaskState.max_iterations ∧
    emptySubtasksCurrentTaskState.error_recovery_mode = false ∧
    emptySubtasksCurrentTaskState.needs_replanning = false ∧
    route_next_action emptySubtasksCurrentTaskState = "tool_caller" ∧
    route_next_action emptySubtasksCurrentTaskState ≠ "synthesizer" := by
  decide

/-- C6 (amended): with an empty subtasks list, `needs_validation`
false, the earlier routing rules disabled *and `current_task` unset or
empty*, `route_next_action` returns `"synthesizer"`.  (In the code an
empty subtasks list is not "vacuously all complete" — `all_complete`
is literally `False` then — and the synthesizer is reached through the
final default rule.) -/
theorem route_empty_subtasks_synthesizer (s : AgentState)
    (hsub : s.subtasks = []) (hval : s.needs_validation = false)
    (hiter : s.iteration_count < s.max_iterations)
    (herm : s.error_recovery_mode = false)
    (hrep : s.needs_replanning = false)
    (hcur : pyTruthyStr s.current_task = false) :
    route_next_action s = "synthesizer" := by
  have h1 : ¬ (s.iteration_count ≥ s.max_iterations) := not_le.mpr hiter
  unfold route_next_action
  simp [hsub, hval, herm, hrep, hcur, h1]

/-- Witness for C6 (amended) at the freshly initialized state. -/
theorem route_empty_subtasks_synthesizer_witness :
    (create_initial_state "q" ["get_account_pnl"] 15 3).subtasks = [] ∧
    route_next_action (create_initial_state "q" ["get_account_pnl"] 15 3)
      = "synthesizer" :=
  ⟨rfl, route_empty_subtasks_synthesizer _ rfl rfl (by decide) rfl rfl rfl⟩

/-- A state that already has one completed id and one validation result. -/
def mergeDemoState : AgentState :=
  { create_initial_state "q" ["get_account_pnl"] 15 3 with
      completed_subtasks := ["task_1"],
      validation_results :=
        [{ is_valid := true, confidence := mkRat 95 100 }] }

/-- A partial update carrying one new completed id and one new
validation result (the shape `execute_tools` and `validate_results`
return). -/
def mergeDemoUpdate : StateUpdate :=
  { completed_subtasks := some ["task_2"],
    validation_results :=
      some [{ is_valid := false, confidence := mkRat 6 10, issues := ["i"] }] }

/-- Counterexample to C3: `completed_subtasks` and
`validation_results` are *not* append-merged.  They are declared
without `operator.add` in `AgentState`, so a merged update replaces
the prior entries: the previously completed id `task_1` and the
previous validation result are lost. -/
theorem merge_append_policy_cex :
    (mergeUpdate mergeDemoState mergeDemoUpdate).completed_subtasks
      = ["task_2"] ∧
    (mergeUpdate mergeDemoState mergeDemoUpdate).completed_subtasks
      ≠ ["task_1", "task_2"] ∧
    "task_1" ∉ (mergeUpdate mergeDemoState mergeDemoUpdate).completed_subtasks ∧
    (mergeUpdate mergeDemoState mergeDemoUpdate).validation_results.length
      = 1 := by
  decide

/-- C3 (amended): the merge policy is fixed per field, identical for
every producing component, but `completed_subtasks` and
`validation_results` are overwrite fields — a present value replaces
all prior entries; only `tool_executions`, `reasoning_steps` and
`errors` (and `messages`) are append-merged. -/
theorem merge_policy_per_field (s : AgentState) (u : StateUpdate)
    (cs : List String) (vr : List ValidationResult)
    (hc : u.completed_subtasks = some cs)
    (hv : u.validation_results = some vr) :
    (mergeUpdate s u).completed_subtasks = cs ∧
    (mergeUpdate s u).validation_results = vr ∧
    (mergeUpdate s u).tool_executions
      = s.tool_executions ++ u.tool_executions.getD [] ∧
    (mergeUpdate s u).errors = s.errors ++ u.errors.getD [] ∧
    (mergeUpdate s u).reasoning_steps
      = s.reasoning_steps ++ u.reasoning_steps.getD [] := by
  simp [mergeUpdate, hc, hv]

/-- Witness for C3 (amended) at the concrete state and update above. -/
theorem merge_policy_per_field_witness :
    mergeDemoUpdate.completed_subtasks = some ["task_2"] ∧
    (mergeUpdate mergeDemoState mergeDemoUpdate).completed_subtasks
      = ["task_2"] :=
  ⟨by decide,
   (merge_policy_per_field mergeDemoState mergeDemoUpdate ["task_2"]
      [{ is_valid := false, confidence := mkRat 6 10, issues := ["i"] }]
      (by decide) (by decide)).1⟩

/-- A fresh run state used to exercise the planner. -/
def planDemoState : AgentState :=
  create_initial_state "What hierarchies are available?"
    ["get_all_hierarchies", "get_account_pnl"] 15 3

/-- Counterexample to C7: when the LLM response parses to a
*well-formed empty array*, `plan_tasks` keeps the empty list — there
is no fallback subtask — `current_task` is set to `None`, and the
router's next decision is `"synthesizer"`, not `"tool_caller"`.  (Only
the no-bracketed-array and exception cases fall back.) -/
theorem planner_empty_list_cex :
    (plan_tasks (PlannerParse.tasks []) "" planDemoState).subtasks
      = some [] ∧
    (plan_tasks (PlannerParse.tasks []) "" planDemoState).subtasks
      ≠ some [create_subtask "task_1"
          ("Address query: " ++ planDemoState.original_query)
          planDemoState.available_tools] ∧
    (plan_tasks (PlannerParse.tasks []) "" planDemoState).current_task
      = some none ∧
    route_next_action
      (mergeUpdate planDemoState
        (plan_tasks (PlannerParse.tasks []) "" planDemoState))
      = "synthesizer" ∧
    route_next_action
      (mergeUpdate planDemoState
        (plan_tasks (PlannerParse.tasks []) "" planDemoState))
      ≠ "tool_caller" := by
  decide

/-- C7 (amended): when no bracketed JSON array is found in the oracle
response, or parsing raises, `plan_tasks` does not fail the run: it
falls back to exactly one synthetic subtask with id `"task_1"`
covering the original request with every available tool, and the
router's next decision is `"tool_caller"`.  A well-formed *empty*
array, however, is kept as an empty plan (no fallback) and the router
then moves to the synthesizer. -/
theorem planner_fallback_single_subtask (resp : PlannerParse)
    (now : String) (s : AgentState)
    (hresp : resp = PlannerParse.noArray ∨ resp = PlannerParse.malformed)
    (hiter : s.iteration_count + 1 < s.max_iterations)
    (herm : s.error_recovery_mode = false)
    (hhpl : (s.tool_executions.filter (fun e =>
      e.tool_name == "calculate_hypothetical_pnl")).isEmpty = true) :
    (plan_tasks resp now s).subtasks
      = some [create_subtask "task_1"
          ("Address query: " ++ s.original_query) s.available_tools] ∧
    (plan_tasks resp now s).current_task = some (some "task_1") ∧
    route_next_action (mergeUpdate s (plan_tasks resp now s))
      = "tool_caller" := by
  have h1 : ¬ (s.iteration_count + 1 ≥ s.max_iterations) := not_le.mpr hiter
  rcases hresp with h | h <;> subst h <;>
    refine ⟨rfl, rfl, ?_⟩ <;>
    · unfold route_next_action mergeUpdate plan_tasks
      simp [herm, h1, create_subtask, pyTruthyStr, hhpl]

/-- Witness for C7 (amended) on the fresh demo state with a
no-array response. -/
theorem planner_fallback_single_subtask_witness :
    (plan_tasks PlannerParse.noArray "" planDemoState).subtasks
      = some [create_subtask "task_1"
          ("Address query: " ++ planDemoState.original_query)
          planDemoState.available_tools] ∧
    route_next_action
      (mergeUpdate planDemoState
        (plan_tasks PlannerParse.noArray "" planDemoState))
      = "tool_caller" :=
  ⟨(planner_fallback_single_subtask PlannerParse.noArray "" planDemoState
      (Or.inl rfl) (by decide) rfl (by decide)).1,
   (planner_fallback_single_subtask PlannerParse.noArray "" planDemoState
      (Or.inl rfl) (by decide) rfl (by decide)).2.2⟩

/-- The tier-1 precondition of `handle_errors`: the subtask named by
the latest error exists and has more than one assigned tool. -/
def hasAlternativeTool (s : AgentState) (latest : ErrorRecord) : Bool :=
  match s.subtasks.find? (fun st => st.id == latest.subtask_id) with
  | some fs => decide (fs.assigned_tools.length > 1)
  | none => false

theorem recoverStep_tier0_fields (now : String) (s : AgentState)
    (latest : ErrorRecord) (hlast : s.errors.getLast? = some latest)
    (h0 : s.retry_count = 0) :
    (recoverStep now s).retry_count = 1 ∧
    (recoverStep now s).errors = s.errors ∧
    (recoverStep now s).subtasks = s.subtasks := by
  refine ⟨?_, ?_, ?_⟩ <;>
    simp [recoverStep, mergeUpdate, handle_errors, hlast, h0]

theorem recoverStep_tier1_fields (now : String) (s : AgentState)
    (latest : ErrorRecord) (hlast : s.errors.getLast? = some latest)
    (h1 : s.retry_count = 1) :
    (recoverStep now s).retry_count
      = (if hasAlternativeTool s latest then 2 else 3) ∧
    (recoverStep now s).errors = s.errors ∧
    (recoverStep now s).subtasks = s.subtasks := by
  unfold hasAlternativeTool
  rcases hfind : s.subtasks.find? (fun st => st.id == latest.subtask_id)
    with _ | fs
  · refine ⟨?_, ?_, ?_⟩ <;>
      simp [recoverStep, mergeUpdate, handle_errors, hlast, h1, hfind]
  · by_cases halt : fs.assigned_tools.length > 1
    · refine ⟨?_, ?_, ?_⟩ <;>
        simp [recoverStep, mergeUpdate, handle_errors, hlast, h1, hfind,
          halt]
    · refine ⟨?_, ?_, ?_⟩ <;>
        simp [recoverStep, mergeUpdate, handle_errors, hlast, h1, hfind,
          halt]

theorem recoverStep_tier2_fields (now : String) (s : AgentState)
    (latest : ErrorRecord) (hlast : s.errors.getLast? = some latest)
    (h2 : s.retry_count = 2) :
    (recoverStep now s).retry_count = 3 ∧
    (recoverStep now s).errors = s.errors ∧
    (recoverStep now s).subtasks = s.subtasks := by
  refine ⟨?_, ?_, ?_⟩ <;>
    simp [recoverStep, mergeUpdate, handle_errors, hlast, h2]

theorem recoverStep_tier3_fields (now : String) (s : AgentState)
    (latest : ErrorRecord) (hlast : s.errors.getLast? = some latest)
    (h3 : 3 ≤ s.retry_count) :
    (recoverStep now s).retry_count = s.retry_count ∧
    (recoverStep now s).errors = s.errors ∧
    (recoverStep now s).subtasks = s.subtasks := by
  have hne0 : s.retry_count ≠ 0 := by omega
  have hne1 : s.retry_count ≠ 1 := by omega
  have hne2 : s.retry_count ≠ 2 := by omega
  refine ⟨?_, ?_, ?_⟩ <;>
    simp [recoverStep, mergeUpdate, handle_errors, hlast, hne0, hne1, hne2]

/-- C4: with a non-empty error log, `handle_errors` is the 4-tier
machine keyed on `retry_count`: tier 0 returns `retry_count = 1`;
tier 1 with an alternative tool returns `retry_count = 2` and points
`current_task` at the failed subtask; tier 1 without one returns
`retry_count = 3` directly; tier 2 returns `retry_count = 3` with
`needs_replanning`; tier 3+ clears `error_recovery_mode` and leaves
`retry_count` unchanged.  Consecutive invocations starting at 0 visit
the tiers in order and never repeat one. -/
theorem handle_errors_tier_machine (now : String) (s : AgentState)
    (latest : ErrorRecord) (hlast : s.errors.getLast? = some latest) :
    (s.retry_count = 0 → (handle_errors now s).retry_count = some 1) ∧
    (s.retry_count = 1 →
      ∀ fs, s.subtasks.find? (fun st => st.id == latest.subtask_id)
          = some fs →
        fs.assigned_tools.length > 1 →
        (handle_errors now s).retry_count = some 2 ∧
        (handle_errors now s).current_task = some (some fs.id)) ∧
    (s.retry_count = 1 → hasAlternativeTool s latest = false →
      (handle_errors now s).retry_count = some 3) ∧
    (s.retry_count = 2 →
      (handle_errors now s).retry_count = some 3 ∧
      (handle_errors now s).needs_replanning = some true) ∧
    (3 ≤ s.retry_count →
      (handle_errors now s).error_recovery_mode = some false ∧
      (handle_errors now s).retry_count = none) ∧
    (s.retry_count = 0 →
      (recoverStep now s).retry_count = 1 ∧
      (recoverStep now (recoverStep now s)).retry_count
        = (if hasAlternativeTool s latest then 2 else 3) ∧
      (recoverStep now (recoverStep now (recoverStep now s))).retry_count
        = 3 ∧
      (recoverStep now (recoverStep now (recoverStep now
        (recoverStep now s)))).retry_count = 3) := by
  refine ⟨?_, ?_, ?_, ?_, ?_, ?_⟩
  · intro h0
    simp [handle_errors, hlast, h0]
  · intro h1 fs hfind halt
    constructor <;> simp [handle_errors, hlast, h1, hfind, halt]
  · intro h1 halt
    unfold hasAlternativeTool at halt
    rcases hfind : s.subtasks.find? (fun st => st.id == latest.subtask_id)
      with _ | fs
    · simp [handle_errors, hlast, h1, hfind]
    · rw [hfind] at halt
      simp only [decide_eq_false_iff_not] at halt
      simp [handle_errors, hlast, h1, hfind, halt]
  · intro h2
    constructor <;> simp [handle_errors, hlast, h2]
  · intro h3
    have hne0 : s.retry_count ≠ 0 := by omega
    have hne1 : s.retry_count ≠ 1 := by omega
    have hne2 : s.retry_count ≠ 2 := by omega
    constructor <;> simp [handle_errors, hlast, hne0, hne1, hne2]
  · intro h0
    obtain ⟨r1, e1, t1⟩ := recoverStep_tier0_fields now s latest hlast h0
    have hlast1 : (recoverStep now s).errors.getLast? = some latest := by
      rw [e1]; exact hlast
    obtain ⟨r2, e2, t2⟩ :=
      recoverStep_tier1_fields now (recoverStep now s) latest hlast1 r1
    have halt1 : hasAlternativeTool (recoverStep now s) latest
        = hasAlternativeTool s latest := by
      unfold hasAlternativeTool
      rw [t1]
    rw [halt1] at r2
    have hlast2 : (recoverStep now (recoverStep now s)).errors.getLast?
        = some latest := by
      rw [e2]; exact hlast1
    rcases Bool.eq_false_or_eq_true (hasAlternativeTool s latest)
      with haltb | haltb
    · rw [haltb] at r2
      simp only [if_true] at r2
      obtain ⟨r3, e3, t3⟩ :=
        recoverStep_tier2_fields now (recoverStep now (recoverStep now s))
          latest hlast2 r2
      have hlast3 : (recoverStep now (recoverStep now
          (recoverStep now s))).errors.getLast? = some latest := by
        rw [e3]; exact hlast2
      obtain ⟨r4, e4, t4⟩ :=
        recoverStep_tier3_fields now
          (recoverStep now (recoverStep now (recoverStep now s)))
          latest hlast3 (by rw [r3])
      rw [r3] at r4
      refine ⟨r1, ?_, r3, r4⟩
      rw [haltb, if_pos rfl]
      exact r2
    · rw [haltb] at r2
      simp at r2
      obtain ⟨r3, e3, t3⟩ :=
        recoverStep_tier3_fields now (recoverStep now (recoverStep now s))
          latest hlast2 (by rw [r2])
      rw [r2] at r3
      have hlast3 : (recoverStep now (recoverStep now
          (recoverStep now s))).errors.getLast? = some latest := by
        rw [e3]; exact hlast2
      obtain ⟨r4, e4, t4⟩ :=
        recoverStep_tier3_fields now
          (recoverStep now (recoverStep now (recoverStep now s)))
          latest hlast3 (by rw [r3])
      rw [r3] at r4
      refine ⟨r1, ?_, r3, r4⟩
      rw [haltb]
      simpa using r2

/-- The latest error of the tier-machine demo state. -/
def tierDemoError : ErrorRecord :=
  { subtask_id := "task_1", tool := "get_account_pnl",
    error := "boom", timestamp := "" }

/-- A state after one failure of a two-tool subtask, retry count 0. -/
def tierDemoState : AgentState :=
  { create_initial_state "q" ["get_account_pnl", "get_all_accounts"] 15 3 with
      subtasks := [{ id := "task_1", description := "d", status := "failed",
                     assigned_tools := ["get_account_pnl", "get_all_accounts"],
                     error := some "boom" }],
      errors := [tierDemoError],
      error_recovery_mode := true }

/-- Witness for C4 at the concrete one-failure state: tier 0 fires and
two consecutive recovery steps reach tier 2 (the alternative-tool
precondition holds there). -/
theorem handle_errors_tier_machine_witness :
    tierDemoState.errors.getLast? = some tierDemoError ∧
    hasAlternativeTool tierDemoState tierDemoError = true ∧
    (handle_errors "" tierDemoState).retry_count = some 1 ∧
    (recoverStep "" tierDemoState).retry_count = 1 ∧
    (recoverStep "" (recoverStep "" tierDemoState)).retry_count
      = (if hasAlternativeTool tierDemoState tierDemoError then 2 else 3) ∧
    (recoverStep "" (recoverStep ""
      (recoverStep "" tierDemoState))).retry_count = 3 := by
  have H := handle_errors_tier_machine "" tierDemoState tierDemoError
    (by decide)
  have htrace := H.2.2.2.2.2 rfl
  exact ⟨by decide, by decide, H.1 rfl, htrace.1, htrace.2.1,
    htrace.2.2.1⟩

/-- The single-subtask plan of the failing run trace. -/
def failTraceTask : TaskData :=
  { id := "task_1", description := "Get account PnL",
    tools := some ["get_account_pnl"] }

/-- Trace state: fresh run. -/
def failTrace_s0 : AgentState :=
  create_initial_state "q" ["get_account_pnl"] 15 3

/-- Trace state: after the planner produced the one-subtask plan. -/
def failTrace_planned : AgentState :=
  mergeUpdate failTrace_s0
    (plan_tasks (PlannerParse.tasks [failTraceTask]) "" failTrace_s0)

/-- An MCP collaborator whose tool invocation raises. -/
def failingCall : String → List (String × String) → Except String String :=
  fun _ _ => Except.error "boom"

/-- Trace state: after the tool caller's invocation failed. -/
def failTrace_afterFail : AgentState :=
  mergeUpdate failTrace_planned
    (execute_tools
      (ToolSelection.parsed "get_account_pnl" [("account_number", "ACCT-001")])
      failingCall "" failTrace_planned)

/-- Trace state: after tier 0 of the recovery strategist ran and its
update was merged. -/
def failTrace_afterTier0 : AgentState :=
  recoverStep "" failTrace_afterFail

/-- C2: the monotonicity and hard-stop parts hold — every component's
update carries `iteration_count + 1` and the router forces the
synthesizer at the cap — but "every run ends ... and always leaves
final_answer set" fails: after any tool failure, tier 0 leaves
`error_recovery_mode` set, so the router returns `"error_handler"`
from the `error_handler` node itself, a target absent from that node's
conditional-edge map in `agent.py`; the graph aborts there with
`final_answer` still `None`. -/
theorem iteration_monotone_but_run_aborts :
    (∀ resp now s, (plan_tasks resp now s).iteration_count
        = some (s.iteration_count + 1)) ∧
    (∀ sel call now s, (execute_tools sel call now s).iteration_count
        = some (s.iteration_count + 1)) ∧
    (∀ call now s, (validate_results call now s).iteration_count
        = some (s.iteration_count + 1)) ∧
    (∀ now s, (handle_errors now s).iteration_count
        = some (s.iteration_count + 1)) ∧
    (∀ answer now s, (synthesize_answer answer now s).iteration_count
        = some (s.iteration_count + 1)) ∧
    (∀ s : AgentState, s.max_iterations ≤ s.iteration_count →
        route_next_action s = "synthesizer") ∧
    (route_next_action failTrace_planned = "tool_caller" ∧
     route_next_action failTrace_afterFail = "error_handler" ∧
     failTrace_afterFail.retry_count = 0 ∧
     failTrace_afterTier0.retry_count = 1 ∧
     failTrace_afterTier0.error_recovery_mode = true ∧
     failTrace_afterTier0.iteration_count
       < failTrace_afterTier0.max_iterations ∧
     route_next_action failTrace_afterTier0 = "error_handler" ∧
     "error_handler" ∉ errorHandlerEdgeTargets ∧
     failTrace_afterTier0.final_answer = none) := by
  refine ⟨?_, ?_, ?_, ?_, ?_, ?_, ?_⟩
  · intro resp now s
    cases resp <;> rfl
  · intro sel call now s
    rcases hcur : s.subtasks.find? (fun st => s.current_task == some st.id)
      with _ | cst
    · rcases hpend : s.subtasks.find? (fun st => st.status == "pending")
        with _ | st <;> simp [execute_tools, hcur, hpend]
    · cases sel with
      | noJson => simp [execute_tools, hcur]
      | parseError msg => simp [execute_tools, hcur]
      | parsed tool args =>
          rcases hcall : call tool args with e | r <;>
            simp [execute_tools, hcur, hcall]
  · intro call now s
    by_cases hsel : (resultsToValidate s).isEmpty <;>
      simp [validate_results, hsel]
  · intro now s
    rcases hlast : s.errors.getLast? with _ | latest
    · simp [handle_errors, hlast]
    · by_cases h0 : s.retry_count = 0
      · simp [handle_errors, hlast, h0]
      · by_cases h1 : s.retry_count = 1
        · rcases hfind : s.subtasks.find?
              (fun st => st.id == latest.subtask_id) with _ | fs
          · simp [handle_errors, hlast, h0, h1, hfind]
          · by_cases halt : fs.assigned_tools.length > 1 <;>
              simp [handle_errors, hlast, h0, h1, hfind, halt]
        · by_cases h2 : s.retry_count = 2 <;>
            simp [handle_errors, hlast, h0, h1, h2]
  · intro answer now s
    rfl
  · intro s h
    unfold route_next_action
    simp [h]
  · decide

/-- Witness for C2's conditional conjuncts at concrete inputs. -/
theorem iteration_monotone_but_run_aborts_witness :
    (plan_tasks PlannerParse.noArray "" failTrace_s0).iteration_count
      = some 1 ∧
    route_next_action
      { failTrace_s0 with iteration_count := 15 } = "synthesizer" :=
  ⟨iteration_monotone_but_run_aborts.1 PlannerParse.noArray "" failTrace_s0,
   iteration_monotone_but_run_aborts.2.2.2.2.2.1
     { failTrace_s0 with iteration_count := 15 } (by decide)⟩

/-- C5: tier 0 cannot cause the Step Executor to re-run the failed
subtask.  After the tier-0 update is merged, `error_recovery_mode` is
still set (tier 0 does not clear it) and the failed subtask is not
reset to `pending`, so the router returns `"error_handler"`, never
`"tool_caller"`; no second `ToolExecution` for the subtask can arise
(here not even a first one exists, since failing calls append no
execution record). -/
theorem tier_zero_does_not_reexecute :
    failTrace_afterFail.errors ≠ [] ∧
    failTrace_afterFail.retry_count = 0 ∧
    (handle_errors "" failTrace_afterFail).retry_count = some 1 ∧
    (handle_errors "" failTrace_afterFail).error_recovery_mode = none ∧
    route_next_action failTrace_afterTier0 ≠ "tool_caller" ∧
    route_next_action failTrace_afterTier0 = "error_handler" ∧
    failTrace_afterTier0.subtasks.any (fun st => st.status == "pending")
      = false ∧
    failTrace_afterTier0.subtasks.all (fun st => st.status == "failed")
      = true ∧
    failTrace_afterTier0.current_task = none ∧
    failTrace_afterTier0.tool_executions = [] := by
  decide

/-- C8: for each selected calculation execution, `validate_results`
produces exactly one `ValidationResult` (one per selected execution,
in order), fixed by three cases: cross-check succeeded with both
results present → valid at confidence 0.95; succeeded with exactly one
result absent → invalid at confidence 0.6 with an explanatory issue;
the cross-check call itself raised → valid at confidence 0.7 with the
failure recorded as an issue, never failing the run. -/
theorem validator_cross_check_cases
    (call : List (String × String) → Except String (Option String))
    (now : String) (s : AgentState)
    (hsel : (resultsToValidate s).isEmpty = false) :
    (validate_results call now s).validation_results
      = some ((resultsToValidate s).map (validateOne call)) ∧
    ∀ execution, execution ∈ resultsToValidate s →
      ∀ acct, dictGet execution.arguments "account_number" = some acct →
        (∀ r, call [("account_number", acct),
              ("hierarchy", altHierarchy execution)] = Except.ok r →
            execution.result ≠ none → r ≠ none →
            (validateOne call execution).is_valid = true ∧
            (validateOne call execution).confidence = mkRat 95 100 ∧
            (validateOne call execution).issues = []) ∧
        (∀ r, call [("account_number", acct),
              ("hierarchy", altHierarchy execution)] = Except.ok r →
            (execution.result = none ∨ r = none) →
            ¬ (execution.result = none ∧ r = none) →
            (validateOne call execution).is_valid = false ∧
            (validateOne call execution).confidence = mkRat 6 10 ∧
            (validateOne call execution).issues
              = ["Alternative hierarchy produced different result structure"]) ∧
        (∀ e, call [("account_number", acct),
              ("hierarchy", altHierarchy execution)] = Except.error e →
            (validateOne call execution).is_valid = true ∧
            (validateOne call execution).confidence = mkRat 7 10 ∧
            (validateOne call execution).issues
              = ["Cross-validation failed: " ++ e]) := by
  constructor
  · simp [validate_results, hsel]
  · intro execution hmem acct hacct
    refine ⟨?_, ?_, ?_⟩
    · intro r hcall hres hr
      have hcons : (execution.result.isSome && r.isSome) = true := by
        simp [Option.isSome_iff_ne_none, hres, hr]
      simp only [validateOne, hacct]
      simp only [hcall]
      refine ⟨?_, ?_, ?_⟩ <;> simp [hcons]
    · intro r hcall horn hboth
      simp only [validateOne, hacct]
      simp only [hcall]
      have hb : (execution.result.isSome && r.isSome) = false := by
        rcases horn with h | h <;> simp [h]
      have hcond : ¬ (execution.result.isSome = true ∧ r.isSome = true) := by
        rcases horn with h | h <;> simp [h]
      refine ⟨?_, ?_, ?_⟩ <;> simp [hb, hcond]
    · intro e hcall
      simp only [validateOne, hacct]
      simp [hcall]

/-- A completed HPL calculation execution. -/
def hplDemoExec : ToolExecution :=
  { tool_name := "calculate_hypothetical_pnl",
    arguments := [("account_number", "ACCT-001"), ("hierarchy", "FHC")],
    result := some "HPL = 100", timestamp := "",
    subtask_id := some "task_1" }

/-- A state holding that one HPL execution, validation pending. -/
def crossCheckDemoState : AgentState :=
  { create_initial_state "q" ["calculate_hypothetical_pnl"] 15 3 with
      tool_executions := [hplDemoExec], needs_validation := true }

/-- An MCP collaborator whose cross-check succeeds with a result. -/
def crossCheckDemoCall :
    List (String × String) → Except String (Option String) :=
  fun _ => Except.ok (some "HPL = 99")

/-- Witness for C8: one selected execution yields exactly one
`ValidationResult`, at confidence 0.95 for a successful non-empty
cross-check. -/
theorem validator_cross_check_cases_witness :
    (validate_results crossCheckDemoCall ""
        crossCheckDemoState).validation_results
      = some [validateOne crossCheckDemoCall hplDemoExec] ∧
    (validateOne crossCheckDemoCall hplDemoExec).confidence
      = mkRat 95 100 ∧
    (validateOne crossCheckDemoCall hplDemoExec).is_valid = true := by
  have H := validator_cross_check_cases crossCheckDemoCall ""
    crossCheckDemoState (by decide)
  have hsel : resultsToValidate crossCheckDemoState = [hplDemoExec] := by
    decide
  have hc := (H.2 hplDemoExec (by rw [hsel]; exact List.mem_singleton.mpr rfl)
    "ACCT-001" (by decide)).1 (some "HPL = 99") rfl (by decide) (by decide)
  exact ⟨by rw [H.1, hsel]; rfl, hc.2.1, hc.1⟩

/-- A state whose single HPL execution is already covered by an
earlier `ValidationResult`. -/
def revalidateDemoState : AgentState :=
  { create_initial_state "q" ["calculate_hypothetical_pnl"] 15 3 with
      tool_executions := [hplDemoExec],
      validation_results := [{ is_valid := true, confidence := mkRat 95 100 }],
      needs_validation := true }

/-- Counterexample to C9: `validate_results` selects the HPL execution
again although an earlier `ValidationResult` already covers it — the
selection filter (`validator.py` lines 20–23) looks only at the tool
name and a truthy result, never at `validation_results`; the execution
is cross-checked a second time. -/
theorem validator_selects_already_validated_cex :
    revalidateDemoState.validation_results ≠ [] ∧
    resultsToValidate revalidateDemoState = [hplDemoExec] ∧
    (validate_results crossCheckDemoCall ""
        revalidateDemoState).validation_results
      = some [validateOne crossCheckDemoCall hplDemoExec] := by
  decide

/-- C9 (amended): `validate_results` selects every HPL execution with
a truthy result, regardless of earlier validation — the selection is
unchanged when `validation_results` is cleared — and re-validation is
prevented only by the router, which (in the not-all-complete case)
routes to the validator only while `validation_results` is empty. -/
theorem validator_selection_ignores_prior_validations (s : AgentState) :
    (∀ e, e ∈ resultsToValidate s ↔
        e ∈ s.tool_executions ∧
        e.tool_name = "calculate_hypothetical_pnl" ∧
        pyTruthyStr e.result = true) ∧
    resultsToValidate { s with validation_results := [] }
      = resultsToValidate s ∧
    (s.validation_results ≠ [] →
      (if s.subtasks.isEmpty then false
       else s.subtasks.all (fun st =>
         st.status == "completed" || st.status == "failed")) = false →
      route_next_action s ≠ "validator") := by
  refine ⟨?_, ?_, ?_⟩
  · intro e
    simp [resultsToValidate, List.mem_filter]
  · rfl
  · intro hvr hac hcontra
    unfold route_next_action at hcontra
    rw [hac] at hcontra
    have hvr' : s.validation_results.isEmpty = false := by
      simpa [List.isEmpty_iff] using hvr
    rw [hvr'] at hcontra
    split_ifs at hcontra <;> simp_all

/-- Witness for C9 (amended) at the already-validated demo state. -/
theorem validator_selection_ignores_prior_validations_witness :
    route_next_action revalidateDemoState ≠ "validator" ∧
    resultsToValidate { revalidateDemoState with validation_results := [] }
      = resultsToValidate revalidateDemoState :=
  ⟨(validator_selection_ignores_prior_validations revalidateDemoState).2.2
     (by decide) (by decide),
   (validator_selection_ignores_prior_validations revalidateDemoState).2.1⟩

/-- C10: whenever `execute_tools` resolves a current subtask, the
update it returns carries
`error_recovery_mode = (this invocation recorded at least one error)`;
in particular a successful tool call returns
`error_recovery_mode = false`, which on merge overwrites (clears) any
previously set recovery flag. -/
theorem executor_error_recovery_tracks_errors (sel : ToolSelection)
    (call : String → List (String × String) → Except String String)
    (now : String) (s : AgentState) (cst : SubTask)
    (hcur : s.subtasks.find? (fun st => s.current_task == some st.id)
      = some cst) :
    (execute_tools sel call now s).error_recovery_mode
      = some (!((execute_tools sel call now s).errors.getD []).isEmpty) ∧
    (∀ tool args result, sel = ToolSelection.parsed tool args →
      call tool args = Except.ok result →
      (execute_tools sel call now s).error_recovery_mode = some false ∧
      (mergeUpdate s (execute_tools sel call now s)).error_recovery_mode
        = false) := by
  constructor
  · cases sel with
    | noJson => simp [execute_tools, hcur]
    | parseError msg => simp [execute_tools, hcur]
    | parsed tool args =>
        rcases hcall : call tool args with e | r <;>
          simp [execute_tools, hcur, hcall]
  · intro tool args result hsel hcall
    subst hsel
    constructor <;> simp [execute_tools, mergeUpdate, hcur, hcall]

/-- The current subtask of the C10 witness state. -/
def executorDemoTask : SubTask :=
  create_subtask "task_1" "d" ["get_account_pnl"]

/-- A state with the recovery flag still set from an earlier failure,
about to execute its current subtask. -/
def executorDemoState : AgentState :=
  { create_initial_state "q" ["get_account_pnl"] 15 3 with
      current_task := some "task_1",
      subtasks := [executorDemoTask],
      error_recovery_mode := true }

/-- The tool decision of the C10 witness. -/
def executorDemoSel : ToolSelection :=
  ToolSelection.parsed "get_account_pnl" [("account_number", "ACCT-001")]

/-- An MCP collaborator whose tool invocation succeeds. -/
def succeedingCall : String → List (String × String) → Except String String :=
  fun _ _ => Except.ok "pnl"

/-- Witness for C10: a successful execution of the current subtask
returns and merges `error_recovery_mode = false`, clearing a
previously set flag. -/
theorem executor_error_recovery_tracks_errors_witness :
    (execute_tools executorDemoSel succeedingCall ""
        executorDemoState).error_recovery_mode = some false ∧
    (mergeUpdate executorDemoState
        (execute_tools executorDemoSel succeedingCall ""
          executorDemoState)).error_recovery_mode = false :=
  (executor_error_recovery_tracks_errors executorDemoSel succeedingCall ""
      executorDemoState executorDemoTask (by decide)).2
    "get_account_pnl" [("account_number", "ACCT-001")] "pnl" rfl rfl
